import Mathlib

/-!
Verification of the availability-to-time-slot core of the book-savvy-studio
repository: the slot generator (edge function get-available-slots) and the
booking conflict validator (edge function create-checkout-session), together
with the relevant parts of the SQL schema (availability constraints, service
and booking rows).

Times are modelled as natural numbers counting minutes (the source computes
with JavaScript Date millisecond timestamps and whole-minute durations; all
comparisons are order comparisons, so the scale does not matter). Rows
fetched from the data store are modelled as lists; each data-store query is
embedded as the corresponding filter over those lists.
-/

namespace BookSavvy

/-- Fixed buffer constant BUFFER_MINUTES = 15, hardcoded in both edge
functions. -/
def BUFFER_MINUTES : Nat := 15

/-- Fixed lead-time constant MINIMUM_LEAD_TIME_HOURS = 2, hardcoded in both
edge functions; expressed in minutes here. -/
def MINIMUM_LEAD_TIME_MINUTES : Nat := 120

/-- Booking status values after the status-check migration: pending,
confirmed, cancelled, completed. -/
inductive BookingStatus where
  | pending
  | confirmed
  | cancelled
  | completed
  deriving DecidableEq, Repr, BEq

/-- Payment status values from the bookings_payment_status_check constraint:
unpaid, pending, paid, refunded. -/
inductive PaymentStatus where
  | unpaid
  | pending
  | paid
  | refunded
  deriving DecidableEq, Repr, BEq

/-- A bookings row. bookingDate is the start instant in minutes.
serviceDuration is the duration of the service the row references through
service_id (data-model information; the generator never reads it, which is
exactly what claim C9 is about). -/
structure Booking where
  bookingDate : Nat
  serviceDuration : Nat
  status : BookingStatus
  paymentStatus : PaymentStatus
  deriving DecidableEq, Repr

/-- The status filters both functions apply in their bookings queries:
status in (pending, confirmed) and payment_status different from refunded. -/
def occupying (b : Booking) : Bool :=
  (b.status == BookingStatus.pending || b.status == BookingStatus.confirmed)
    && b.paymentStatus != PaymentStatus.refunded

/-- A services row: id, creator_id, duration (minutes), price, active flag. -/
structure Service where
  id : Nat
  creatorId : Nat
  duration : Nat
  price : Nat
  active : Bool
  deriving DecidableEq, Repr

/-- The service lookup both edge functions perform: select where id equals
serviceId and creator_id equals the resolved creator. Note that neither
function filters on the active column. -/
def findService (services : List Service) (serviceId creatorId : Nat) :
    Option Service :=
  services.find? fun s => s.id == serviceId && s.creatorId == creatorId

/-- An availability row: creator_id, day_of_week (0 to 6), start_time and
end_time as minutes of day, is_active. -/
structure AvailRow where
  creatorId : Nat
  dayOfWeek : Nat
  startTime : Nat
  endTime : Nat
  isActive : Bool
  deriving DecidableEq, Repr

/-- The availability query both functions perform: rows for the creator and
day of week with is_active true, projected to (start_time, end_time). -/
def queryAvailability (rows : List AvailRow) (creatorId dow : Nat) :
    List (Nat × Nat) :=
  (rows.filter fun r =>
      r.creatorId == creatorId && r.dayOfWeek == dow && r.isActive).map
    fun r => (r.startTime, r.endTime)

/-- The three-disjunct overlap test the slot generator writes inline, both
against bookings and against time off: the first interval starts inside the
second, or ends inside it (half-open at the start, closed at the end), or
contains it. -/
def genOverlapTest (aStart aEnd bStart bEnd : Nat) : Bool :=
  (decide (aStart ≥ bStart) && decide (aStart < bEnd))
    || (decide (aEnd > bStart) && decide (aEnd ≤ bEnd))
    || (decide (aStart ≤ bStart) && decide (aEnd ≥ bEnd))

/-- The two-conjunct overlap test the conflict validator writes inline:
bookingStart < existingEnd and bookingEnd > existingStart. -/
def valOverlapTest (aStart aEnd bStart bEnd : Nat) : Bool :=
  decide (aStart < bEnd) && decide (aEnd > bStart)

/-- The half-open interval overlap predicate as section 4.3 of the spec
defines it; spec-side definition kept for the refinement comparison of
claim C5. -/
def overlaps (aStart aEnd bStart bEnd : Nat) : Bool :=
  decide (aStart < bEnd) && decide (aEnd > bStart)

/-- The hasConflict test of the generator loop: some fetched booking row,
with occupied interval computed from its booking_date plus the REQUESTED
service duration plus the buffer, passes the three-disjunct test. -/
def genHasConflict (dur cur slotEnd : Nat) (bookingStarts : List Nat) :
    Bool :=
  bookingStarts.any fun bStart =>
    genOverlapTest cur slotEnd bStart (bStart + (dur + BUFFER_MINUTES))

/-- The inTimeOff test of the generator loop: some fetched time-off row
passes the three-disjunct test against the candidate slot. -/
def genInTimeOff (cur slotEnd : Nat) (timeOff : List (Nat × Nat)) : Bool :=
  timeOff.any fun p => genOverlapTest cur slotEnd p.1 p.2

/-- Fuel-indexed form of the generator while-loop over one availability
rule. The source loop runs while currentSlot < endTime, computes
slotEnd = currentSlot + duration, skips the candidate when
slotEnd <= minStartTime or on a booking or time-off overlap, emits it
otherwise, and always advances by duration + buffer. One unit of fuel is
consumed per iteration; since the stride is positive, endTime - cur units
always suffice, and slotLoop_eq below recovers the exact loop unfolding. -/
def slotLoopF (dur minStart : Nat) (bookingStarts : List Nat)
    (timeOff : List (Nat × Nat)) (endTime : Nat) :
    Nat → Nat → List (Nat × Nat)
  | 0, _ => []
  | fuel + 1, cur =>
    if cur < endTime then
      let slotEnd := cur + dur
      let rest := slotLoopF dur minStart bookingStarts timeOff endTime fuel
        (cur + (dur + BUFFER_MINUTES))
      if slotEnd ≤ minStart then rest
      else if genHasConflict dur cur slotEnd bookingStarts
          || genInTimeOff cur slotEnd timeOff then rest
      else (cur, slotEnd) :: rest
    else []

/-- The generator while-loop over one availability rule, starting at the
rule start time cur and bounded by the rule end time. -/
def slotLoop (dur minStart : Nat) (bookingStarts : List Nat)
    (timeOff : List (Nat × Nat)) (endTime cur : Nat) : List (Nat × Nat) :=
  slotLoopF dur minStart bookingStarts timeOff endTime (endTime - cur) cur

/-- The date filter of the generator bookings query: booking_date between
the start of the requested day and 23:59:59.999 of that day; for
whole-minute instants that is exactly dayStart <= t < dayStart + 1440. -/
def dayScoped (dayStart : Nat) (b : Booking) : Bool :=
  decide (dayStart ≤ b.bookingDate) && decide (b.bookingDate < dayStart + 1440)

/-- The filter of the generator time-off query: start_datetime at most the
end of the requested day and end_datetime at least its start. -/
def timeOffScoped (dayStart : Nat) (p : Nat × Nat) : Bool :=
  decide (p.1 < dayStart + 1440) && decide (dayStart ≤ p.2)

/-- The slot generation of get-available-slots after the service has been
resolved: filter the bookings query (status, payment status, date range),
project booking_date, filter the time-off query, then walk every
availability rule in order and concatenate the per-rule slots. dayStart is
the midnight instant of the requested date; rule times are minutes of day. -/
def generateSlots (dur minStart : Nat) (bookings : List Booking)
    (timeOff : List (Nat × Nat)) (dayStart : Nat)
    (rules : List (Nat × Nat)) : List (Nat × Nat) :=
  let bs := (bookings.filter fun b => occupying b && dayScoped dayStart b).map
    fun b => b.bookingDate
  let toff := timeOff.filter (timeOffScoped dayStart)
  rules.flatMap fun r =>
    slotLoop dur minStart bs toff (dayStart + r.2) (dayStart + r.1)

/-- Error message of the service lookup in both functions. -/
def serviceNotFoundMsg : String := "Service not found"

/-- Error message of the lead-time check in create-checkout-session. -/
def leadTimeMsg : String := "Bookings must be made at least 2 hours in advance"

/-- Error message when no active availability rows exist for the day. -/
def noAvailabilityMsg : String := "Creator is not available on this day"

/-- Error message of the within-availability check (source text shortened:
the original wording contains a possessive). -/
def outsideAvailabilityMsg : String := "Selected time is outside availability hours"

/-- Error message of the booking conflict check. -/
def conflictMsg : String := "This time slot is no longer available"

/-- Error message of the time-off check. -/
def timeOffConflictMsg : String := "Creator is not available during this time"

/-- The full get-available-slots pipeline from the service lookup on:
failure only when no services row matches (id, creator); otherwise the
generated slots. When no availability rows survive the query the source
returns an empty timeSlots list early, which coincides with generateSlots
applied to an empty rule list. -/
def getAvailableSlots (services : List Service) (avail : List AvailRow)
    (bookings : List Booking) (timeOff : List (Nat × Nat))
    (creatorId serviceId dow dayStart minStart : Nat) :
    Except String (List (Nat × Nat)) :=
  match findService services serviceId creatorId with
  | none => Except.error serviceNotFoundMsg
  | some s =>
      Except.ok (generateSlots s.duration minStart bookings timeOff dayStart
        (queryAvailability avail creatorId dow))

/-- The validation chain of create-checkout-session after the service has
been resolved: lead-time check, availability rows present, proposed time of
day inside some rule, no overlap with an occupying booking where BOTH the
proposed interval end and every existing occupied interval are computed as
start + requested duration + buffer, and no time-off row with
start_datetime <= proposed buffered end and end_datetime >= proposed start
(the closed comparisons of the query). On success the inserted row is
returned with status pending and payment status pending. -/
def createBookingCheck (dur minStart proposedStart dayStart : Nat)
    (rules : List (Nat × Nat)) (bookings : List Booking)
    (timeOff : List (Nat × Nat)) : Except String Booking :=
  if proposedStart ≤ minStart then
    Except.error leadTimeMsg
  else if rules.isEmpty then
    Except.error noAvailabilityMsg
  else if !(rules.any fun r =>
      decide (r.1 ≤ proposedStart - dayStart)
        && decide (proposedStart - dayStart < r.2)) then
    Except.error outsideAvailabilityMsg
  else if (bookings.filter occupying).any (fun b =>
      valOverlapTest proposedStart (proposedStart + (dur + BUFFER_MINUTES))
        b.bookingDate (b.bookingDate + (dur + BUFFER_MINUTES))) then
    Except.error conflictMsg
  else if timeOff.any (fun p =>
      decide (p.1 ≤ proposedStart + (dur + BUFFER_MINUTES))
        && decide (proposedStart ≤ p.2)) then
    Except.error timeOffConflictMsg
  else
    Except.ok
      { bookingDate := proposedStart
        serviceDuration := dur
        status := BookingStatus.pending
        paymentStatus := PaymentStatus.pending }

/-- The full create-checkout-session pipeline from the service lookup on.
The day of week and the midnight instant dayStart of the proposed day are
taken as inputs (the source derives both from the proposed instant); the
proposed time of day is proposedStart - dayStart. -/
def createBooking (services : List Service) (avail : List AvailRow)
    (bookings : List Booking) (timeOff : List (Nat × Nat))
    (creatorId serviceId proposedStart dow dayStart minStart : Nat) :
    Except String Booking :=
  match findService services serviceId creatorId with
  | none => Except.error serviceNotFoundMsg
  | some s =>
      createBookingCheck s.duration minStart proposedStart dayStart
        (queryAvailability avail creatorId dow) bookings timeOff

/-- The conflict formula exactly as the spec sentence behind claim C1 states
it; spec-side definition kept for comparison with createBookingCheck. The
proposed end adds the service duration only, and each occupying booking
occupies [otherStart, otherStart + its OWN service duration + buffer). -/
def specC1ConflictFormula (dur proposedStart : Nat)
    (bookings : List Booking) : Bool :=
  (bookings.filter occupying).any fun b =>
    decide (proposedStart < b.bookingDate + b.serviceDuration + BUFFER_MINUTES)
      && decide (proposedStart + dur > b.bookingDate)

/-- The insertion admissibility encoded by the availability_creator_day_unique
constraint of the schema: UNIQUE (creator_id, day_of_week). Inserting a row
succeeds exactly when no existing row already has the same creator and day
of week. -/
def availabilityInsertAllowed (rows : List AvailRow) (newRow : AvailRow) :
    Bool :=
  !(rows.any fun r =>
    r.creatorId == newRow.creatorId && r.dayOfWeek == newRow.dayOfWeek)

/-- A confirmed, paid booking of a 60-minute service starting at minute 585
(09:45 of the modelled day); concrete row used in the analysis of the
generator conflict computation. -/
def bookedLongService : Booking :=
  { bookingDate := 585
    serviceDuration := 60
    status := BookingStatus.confirmed
    paymentStatus := PaymentStatus.paid }

/-- A services row whose active flag is false, owned by creator 2. -/
def inactiveService : Service :=
  { id := 1, creatorId := 2, duration := 30, price := 50, active := false }

/-- An active Monday 09:00 to 12:00 availability row for creator 2. -/
def demoAvailRow : AvailRow :=
  { creatorId := 2, dayOfWeek := 1, startTime := 540, endTime := 720,
    isActive := true }

/-! ## Loop lemmas -/

/-- Fuel irrelevance: any fuel at least endTime - cur computes the same list,
so slotLoop is the denotation of the source while-loop. -/
theorem slotLoopF_congr (dur minStart : Nat) (bs : List Nat)
    (toff : List (Nat × Nat)) (endTime : Nat) :
    ∀ f1 f2 cur, endTime - cur ≤ f1 → endTime - cur ≤ f2 →
      slotLoopF dur minStart bs toff endTime f1 cur
        = slotLoopF dur minStart bs toff endTime f2 cur := by
  intro f1
  induction f1 with
  | zero =>
    intro f2 cur h1 h2
    have hc : ¬ cur < endTime := by omega
    cases f2 with
    | zero => rfl
    | succ g => simp [slotLoopF, hc]
  | succ n ih =>
    intro f2 cur h1 h2
    cases f2 with
    | zero =>
      have hc : ¬ cur < endTime := by omega
      simp [slotLoopF, hc]
    | succ g =>
      by_cases hc : cur < endTime
      · have hB : BUFFER_MINUTES = 15 := rfl
        have hrec := ih g (cur + (dur + BUFFER_MINUTES)) (by omega) (by omega)
        simp only [slotLoopF, if_pos hc, hrec]
      · simp [slotLoopF, hc]

/-- The exact unfolding of the generator while-loop: one iteration of
slotLoop in terms of slotLoop at the advanced cursor. -/
theorem slotLoop_eq (dur minStart : Nat) (bs : List Nat)
    (toff : List (Nat × Nat)) (endTime cur : Nat) :
    slotLoop dur minStart bs toff endTime cur
      = if cur < endTime then
          let slotEnd := cur + dur
          let rest := slotLoop dur minStart bs toff endTime
            (cur + (dur + BUFFER_MINUTES))
          if slotEnd ≤ minStart then rest
          else if genHasConflict dur cur slotEnd bs
              || genInTimeOff cur slotEnd toff then rest
          else (cur, slotEnd) :: rest
        else [] := by
  unfold slotLoop
  by_cases hc : cur < endTime
  · have hB : BUFFER_MINUTES = 15 := rfl
    have h1 : endTime - cur = (endTime - cur - 1) + 1 := by omega
    rw [h1]
    simp only [slotLoopF, if_pos hc]
    rw [slotLoopF_congr dur minStart bs toff endTime (endTime - cur - 1)
      (endTime - (cur + (dur + BUFFER_MINUTES))) (cur + (dur + BUFFER_MINUTES))
      (by omega) (by omega)]
  · have h0 : endTime - cur = 0 := by omega
    rw [h0]
    simp [slotLoopF, hc]

/-- Shape of every slot the loop emits: the start is at or after the cursor,
strictly before the rule end, lies on the stride grid, the end is start plus
the service duration, and the end is strictly after the lead-time cutoff. -/
theorem slotLoopF_mem (dur minStart : Nat) (bs : List Nat)
    (toff : List (Nat × Nat)) (endTime : Nat) :
    ∀ fuel cur s, s ∈ slotLoopF dur minStart bs toff endTime fuel cur →
      cur ≤ s.1 ∧ s.1 < endTime ∧ s.2 = s.1 + dur ∧ minStart < s.2 ∧
        ∃ k, s.1 = cur + k * (dur + BUFFER_MINUTES) := by
  intro fuel
  induction fuel with
  | zero => intro cur s h; simp [slotLoopF] at h
  | succ n ih =>
    intro cur s h
    simp only [slotLoopF] at h
    by_cases hc : cur < endTime
    · rw [if_pos hc] at h
      have hB : BUFFER_MINUTES = 15 := rfl
      by_cases h1 : cur + dur ≤ minStart
      · rw [if_pos h1] at h
        obtain ⟨hle, hlt, he, hm, k, hk⟩ := ih (cur + (dur + BUFFER_MINUTES)) s h
        exact ⟨by omega, hlt, he, hm, k + 1, by rw [hk]; ring⟩
      · rw [if_neg h1] at h
        by_cases h2 : (genHasConflict dur cur (cur + dur) bs
            || genInTimeOff cur (cur + dur) toff) = true
        · rw [if_pos h2] at h
          obtain ⟨hle, hlt, he, hm, k, hk⟩ :=
            ih (cur + (dur + BUFFER_MINUTES)) s h
          exact ⟨by omega, hlt, he, hm, k + 1, by rw [hk]; ring⟩
        · rw [if_neg h2] at h
          rcases List.mem_cons.mp h with hs | hs
          · subst hs
            exact ⟨le_refl _, hc, rfl, by omega, 0, by ring⟩
          · obtain ⟨hle, hlt, he, hm, k, hk⟩ :=
              ih (cur + (dur + BUFFER_MINUTES)) s hs
            exact ⟨by omega, hlt, he, hm, k + 1, by rw [hk]; ring⟩
    · rw [if_neg hc] at h
      simp at h

/-- The emitted slots are strictly increasing in start time, consecutive
ones separated by a positive multiple of the stride. -/
theorem slotLoopF_pairwise (dur minStart : Nat) (bs : List Nat)
    (toff : List (Nat × Nat)) (endTime : Nat) :
    ∀ fuel cur,
      List.Pairwise (fun s t : Nat × Nat => s.1 < t.1 ∧
          ∃ k, 0 < k ∧ t.1 = s.1 + k * (dur + BUFFER_MINUTES))
        (slotLoopF dur minStart bs toff endTime fuel cur) := by
  intro fuel
  induction fuel with
  | zero => intro cur; simp [slotLoopF]
  | succ n ih =>
    intro cur
    simp only [slotLoopF]
    by_cases hc : cur < endTime
    · rw [if_pos hc]
      have hB : BUFFER_MINUTES = 15 := rfl
      by_cases h1 : cur + dur ≤ minStart
      · rw [if_pos h1]; exact ih _
      · rw [if_neg h1]
        by_cases h2 : (genHasConflict dur cur (cur + dur) bs
            || genInTimeOff cur (cur + dur) toff) = true
        · rw [if_pos h2]; exact ih _
        · rw [if_neg h2]
          refine List.pairwise_cons.mpr ⟨?_, ih _⟩
          intro t ht
          obtain ⟨hle, _, _, _, k, hk⟩ :=
            slotLoopF_mem dur minStart bs toff endTime n _ t ht
          refine ⟨by omega, k + 1, by omega, by rw [hk]; ring⟩
    · rw [if_neg hc]
      simp

/-! ## Query characterizations -/

/-- The within-availability Bool test of the validator as an existential. -/
theorem withinAny_iff (proposedStart dayStart : Nat)
    (rules : List (Nat × Nat)) :
    (rules.any fun r => decide (r.1 ≤ proposedStart - dayStart)
        && decide (proposedStart - dayStart < r.2)) = true
      ↔ ∃ r ∈ rules, r.1 ≤ proposedStart - dayStart ∧
          proposedStart - dayStart < r.2 := by
  simp [List.any_eq_true]

/-- The validator conflict Bool test as an existential over the unfiltered
bookings list. -/
theorem conflictAny_iff (dur proposedStart : Nat) (bookings : List Booking) :
    ((bookings.filter occupying).any fun b =>
        valOverlapTest proposedStart (proposedStart + (dur + BUFFER_MINUTES))
          b.bookingDate (b.bookingDate + (dur + BUFFER_MINUTES))) = true
      ↔ ∃ b ∈ bookings, occupying b = true ∧
          proposedStart < b.bookingDate + (dur + BUFFER_MINUTES) ∧
          proposedStart + (dur + BUFFER_MINUTES) > b.bookingDate := by
  simp [List.any_eq_true, List.mem_filter, valOverlapTest, and_assoc]

/-- The validator time-off query condition as an existential. -/
theorem timeOffAny_iff (dur proposedStart : Nat)
    (timeOff : List (Nat × Nat)) :
    (timeOff.any fun p =>
        decide (p.1 ≤ proposedStart + (dur + BUFFER_MINUTES))
          && decide (proposedStart ≤ p.2)) = true
      ↔ ∃ p ∈ timeOff, p.1 ≤ proposedStart + (dur + BUFFER_MINUTES) ∧
          proposedStart ≤ p.2 := by
  simp [List.any_eq_true]

/-- The validation chain never reports the service-lookup error: every
message it can produce differs from serviceNotFoundMsg. -/
theorem createBookingCheck_ne_serviceNotFound
    (dur minStart proposedStart dayStart : Nat) (rules : List (Nat × Nat))
    (bookings : List Booking) (timeOff : List (Nat × Nat)) :
    createBookingCheck dur minStart proposedStart dayStart rules bookings
      timeOff ≠ Except.error serviceNotFoundMsg := by
  unfold createBookingCheck
  split_ifs <;> intro hcon <;>
    first
      | exact Except.noConfusion hcon
      | (injection hcon with hmsg; exact absurd hmsg (by decide))

/-! ## Claim theorems -/

/-- C2 counterexample: with a 60-minute service and a 09:00 to 12:00 rule the
generator emits the slot (690, 750), whose end 12:30 exceeds the 12:00 rule
end, refuting that every emitted slot ends at or before the rule end. -/
theorem c2_counterexample :
    ((690, 750) : Nat × Nat) ∈ generateSlots 60 0 [] [] 0 [(540, 720)] ∧
      ¬ ((690, 750) : Nat × Nat).2 ≤ 720 := by
  exact ⟨by decide, by decide⟩

/-- C2 (amended): the per-rule walk stops once a step START reaches the rule
end time, so every emitted slot starts at or after the cursor and strictly
before the rule end, and ends exactly serviceDuration after its start; the
end itself may exceed the rule end. -/
theorem c2_slot_bound :
    ∀ (dur minStart : Nat) (bs : List Nat) (toff : List (Nat × Nat))
      (endTime cur : Nat) (s : Nat × Nat),
      s ∈ slotLoop dur minStart bs toff endTime cur →
      cur ≤ s.1 ∧ s.1 < endTime ∧ s.2 = s.1 + dur := by
  intro dur minStart bs toff endTime cur s hs
  obtain ⟨h1, h2, h3, _, _⟩ :=
    slotLoopF_mem dur minStart bs toff endTime _ _ s hs
  exact ⟨h1, h2, h3⟩

/-- C2 witness: the amended bound evaluated on the first Scenario A slot. -/
theorem c2_slot_bound_witness :
    540 ≤ ((540, 570) : Nat × Nat).1 ∧ ((540, 570) : Nat × Nat).1 < 720 ∧
      ((540, 570) : Nat × Nat).2 = ((540, 570) : Nat × Nat).1 + 30 :=
  c2_slot_bound 30 0 [] [] 720 540 (540, 570) (by decide)

/-- C5: the three-disjunct generator test and the two-conjunct validator test
both agree with the half-open overlap predicate on all proper intervals, and
the two boundary examples of the spec hold under all three. -/
theorem c5_overlap_equivalence :
    ∀ aS aE bS bE : Nat, aS < aE → bS < bE →
      (genOverlapTest aS aE bS bE = overlaps aS aE bS bE ∧
        valOverlapTest aS aE bS bE = overlaps aS aE bS bE) ∧
      ∀ a : Nat,
        overlaps a (a + 1) (a + 1) (a + 2) = false ∧
        overlaps a (a + 2) (a + 1) (a + 3) = true ∧
        genOverlapTest a (a + 1) (a + 1) (a + 2) = false ∧
        genOverlapTest a (a + 2) (a + 1) (a + 3) = true ∧
        valOverlapTest a (a + 1) (a + 1) (a + 2) = false ∧
        valOverlapTest a (a + 2) (a + 1) (a + 3) = true := by
  intro aS aE bS bE h1 h2
  constructor
  · constructor
    · rw [Bool.eq_iff_iff]
      simp only [genOverlapTest, overlaps, Bool.or_eq_true, Bool.and_eq_true,
        decide_eq_true_eq]
      omega
    · rfl
  · intro a
    refine ⟨?_, ?_, ?_, ?_, ?_, ?_⟩ <;>
      · first
          | (refine Bool.eq_false_iff.mpr fun h => ?_
             simp only [genOverlapTest, valOverlapTest, overlaps,
               Bool.or_eq_true, Bool.and_eq_true, decide_eq_true_eq] at h
             omega)
          | (simp only [genOverlapTest, valOverlapTest, overlaps,
               Bool.or_eq_true, Bool.and_eq_true, decide_eq_true_eq]
             omega)

/-- C5 witness: the equivalences evaluated on the partially overlapping
intervals [0, 2) and [1, 3). -/
theorem c5_overlap_equivalence_witness :
    genOverlapTest 0 2 1 3 = overlaps 0 2 1 3 ∧
      valOverlapTest 0 2 1 3 = overlaps 0 2 1 3 :=
  (c5_overlap_equivalence 0 2 1 3 (by decide) (by decide)).1

/-- C6 counterexample: with one availability row for creator 7 on day 1
already present, inserting a second row for the same creator and day is
rejected by the availability_creator_day_unique constraint, refuting that
the data model admits a second rule for the same pair. -/
theorem c6_counterexample :
    availabilityInsertAllowed
        [{ creatorId := 7, dayOfWeek := 1, startTime := 540, endTime := 720,
           isActive := true }]
        { creatorId := 7, dayOfWeek := 1, startTime := 780, endTime := 900,
          isActive := true } = false := by
  decide

/-- C6 (amended): the UNIQUE (creator_id, day_of_week) constraint admits at
most one availability rule per creator and day of week: whenever some stored
row already carries the same creator and day, the insertion is rejected. -/
theorem c6_unique_rejects :
    ∀ (rows : List AvailRow) (r newRow : AvailRow),
      r ∈ rows → r.creatorId = newRow.creatorId →
      r.dayOfWeek = newRow.dayOfWeek →
      availabilityInsertAllowed rows newRow = false := by
  intro rows r newRow hr h1 h2
  have hx : (rows.any fun q =>
      q.creatorId == newRow.creatorId && q.dayOfWeek == newRow.dayOfWeek)
        = true :=
    List.any_eq_true.mpr ⟨r, hr, by simp [h1, h2]⟩
  simp [availabilityInsertAllowed, hx]

/-- C6 witness: the rejection evaluated on a concrete stored row and a
second row for the same creator and day. -/
theorem c6_unique_rejects_witness :
    availabilityInsertAllowed
        [{ creatorId := 3, dayOfWeek := 2, startTime := 600, endTime := 660,
           isActive := true }]
        { creatorId := 3, dayOfWeek := 2, startTime := 100, endTime := 200,
          isActive := false } = false :=
  c6_unique_rejects
    [{ creatorId := 3, dayOfWeek := 2, startTime := 600, endTime := 660,
       isActive := true }]
    { creatorId := 3, dayOfWeek := 2, startTime := 600, endTime := 660,
      isActive := true }
    { creatorId := 3, dayOfWeek := 2, startTime := 100, endTime := 200,
      isActive := false }
    (by decide) rfl rfl

/-- C7: Scenario A. For a single 09:00 to 12:00 rule (minutes 540 to 720 of
the day), a 30-minute service, no bookings and no time off, and any
lead-time cutoff below the first candidate end 09:30, the generator returns
exactly the four slots 09:00, 09:45, 10:30 and 11:15, each ending 30 minutes
after its start. -/
theorem c7_scenarioA :
    ∀ minStart : Nat, minStart < 570 →
      generateSlots 30 minStart [] [] 0 [(540, 720)]
        = [(540, 570), (585, 615), (630, 660), (675, 705)] := by
  intro minStart h
  have h1 : ¬ (570 ≤ minStart) := by omega
  have h2 : ¬ (615 ≤ minStart) := by omega
  have h3 : ¬ (660 ≤ minStart) := by omega
  have h4 : ¬ (705 ≤ minStart) := by omega
  have hg : generateSlots 30 minStart [] [] 0 [(540, 720)]
      = slotLoop 30 minStart [] [] 720 540 := by
    simp [generateSlots]
  rw [hg]
  rw [slotLoop_eq, slotLoop_eq, slotLoop_eq, slotLoop_eq, slotLoop_eq]
  norm_num [genHasConflict, genInTimeOff, BUFFER_MINUTES, h1, h2, h3, h4]

/-- C7 witness: Scenario A evaluated with lead-time cutoff 0. -/
theorem c7_scenarioA_witness :
    generateSlots 30 0 [] [] 0 [(540, 720)]
      = [(540, 570), (585, 615), (630, 660), (675, 705)] :=
  c7_scenarioA 0 (by decide)

/-- C8: every slot the generator emits ends strictly after the lead-time
cutoff minStart, whatever the rules, bookings and time off are. -/
theorem c8_lead_time :
    ∀ (dur minStart : Nat) (bookings : List Booking)
      (timeOff : List (Nat × Nat)) (dayStart : Nat)
      (rules : List (Nat × Nat)) (s : Nat × Nat),
      s ∈ generateSlots dur minStart bookings timeOff dayStart rules →
      minStart < s.2 := by
  intro dur minStart bookings timeOff dayStart rules s hs
  simp only [generateSlots, slotLoop, List.mem_flatMap] at hs
  obtain ⟨r, _, hr⟩ := hs
  exact (slotLoopF_mem dur minStart _ _ _ _ _ s hr).2.2.2.1

/-- C8 witness: the lead-time bound evaluated on the first slot generated
with cutoff 100. -/
theorem c8_lead_time_witness :
    (100 : Nat) < ((540, 570) : Nat × Nat).2 :=
  c8_lead_time 30 100 [] [] 0 [(540, 720)] (540, 570) (by decide)

/-- C9: the generator computes occupied intervals from the REQUESTED service
duration. With one confirmed paid booking of a 60-minute service at minute
585, requesting 30-minute slots blocks only [585, 630) and emits (630, 660),
even though that slot overlaps the true occupied interval of the booked
60-minute service, while requesting 60-minute slots blocks a different set
of candidates. -/
theorem c9_requested_duration :
    generateSlots 30 0 [bookedLongService] [] 0 [(540, 720)]
        = [(540, 570), (630, 660), (675, 705)] ∧
      generateSlots 60 0 [bookedLongService] [] 0 [(540, 720)]
        = [(690, 750)] ∧
      overlaps 630 660 bookedLongService.bookingDate
        (bookedLongService.bookingDate + bookedLongService.serviceDuration
          + BUFFER_MINUTES) = true := by
  exact ⟨by decide, by decide, by decide⟩

/-- C10: within one availability rule the emitted slots are strictly
increasing in start time, consecutive starts differ by a positive multiple
of the stride serviceDuration + buffer, and every start lies on the grid
ruleStart + k * stride. -/
theorem c10_stride :
    ∀ (dur minStart : Nat) (bs : List Nat) (toff : List (Nat × Nat))
      (endTime startT : Nat),
      List.Pairwise (fun s t : Nat × Nat => s.1 < t.1 ∧
          ∃ k, 0 < k ∧ t.1 = s.1 + k * (dur + BUFFER_MINUTES))
        (slotLoop dur minStart bs toff endTime startT) ∧
      ∀ s ∈ slotLoop dur minStart bs toff endTime startT,
        ∃ k, s.1 = startT + k * (dur + BUFFER_MINUTES) := by
  intro dur minStart bs toff endTime startT
  refine ⟨slotLoopF_pairwise dur minStart bs toff endTime _ _, ?_⟩
  intro s hs
  exact (slotLoopF_mem dur minStart bs toff endTime _ _ s hs).2.2.2.2

/-- C10 witness: the grid property evaluated on the second Scenario A
slot. -/
theorem c10_stride_witness :
    ∃ k, ((585, 615) : Nat × Nat).1 = 540 + k * (30 + BUFFER_MINUTES) :=
  (c10_stride 30 0 [] [] 720 540).2 (585, 615) (by decide)

/-- C1 counterexample: proposed start 1000, 30-minute service, one occupying
booking of its own 30-minute service at 1030. The spec formula (duration-only
proposed end, interval of the other booking from its own duration) reports no
conflict, yet the validator rejects with the conflict error, because its
proposed end includes the buffer. -/
theorem c1_counterexample :
    createBookingCheck 30 0 1000 0 [(0, 1440)]
        [{ bookingDate := 1030, serviceDuration := 30,
           status := BookingStatus.pending,
           paymentStatus := PaymentStatus.pending }] []
      = Except.error conflictMsg ∧
    specC1ConflictFormula 30 1000
        [{ bookingDate := 1030, serviceDuration := 30,
           status := BookingStatus.pending,
           paymentStatus := PaymentStatus.pending }] = false := by
  exact ⟨rfl, rfl⟩

/-- C1 (amended): the validator fails with the conflict error exactly when
the earlier checks pass and some occupying booking b satisfies
proposedStart < b.start + requestedDuration + buffer and
proposedStart + requestedDuration + buffer > b.start: the proposed end
includes the buffer and the occupied interval of the other booking is
computed from the REQUESTED service duration, not its own. -/
theorem c1_conflict_decision :
    ∀ (dur minStart proposedStart dayStart : Nat)
      (rules : List (Nat × Nat)) (bookings : List Booking)
      (timeOff : List (Nat × Nat)),
      createBookingCheck dur minStart proposedStart dayStart rules bookings
          timeOff = Except.error conflictMsg
        ↔ minStart < proposedStart ∧ rules ≠ [] ∧
            (∃ r ∈ rules, r.1 ≤ proposedStart - dayStart ∧
              proposedStart - dayStart < r.2) ∧
            ∃ b ∈ bookings, occupying b = true ∧
              proposedStart < b.bookingDate + (dur + BUFFER_MINUTES) ∧
              proposedStart + (dur + BUFFER_MINUTES) > b.bookingDate := by
  intro dur minStart proposedStart dayStart rules bookings timeOff
  unfold createBookingCheck
  split_ifs with hlead hempty havail hconf htoff
  · refine iff_of_false (fun hcon => ?_) (fun hr => ?_)
    · injection hcon with hmsg; exact absurd hmsg (by decide)
    · exact absurd hr.1 (by omega)
  · refine iff_of_false (fun hcon => ?_) (fun hr => ?_)
    · injection hcon with hmsg; exact absurd hmsg (by decide)
    · rcases hr with ⟨_, hne, _, _⟩
      cases rules with
      | nil => exact hne rfl
      | cons a l => simp at hempty
  · refine iff_of_false (fun hcon => ?_) (fun hr => ?_)
    · injection hcon with hmsg; exact absurd hmsg (by decide)
    · rcases hr with ⟨_, _, hin, _⟩
      have hx := (withinAny_iff proposedStart dayStart rules).mpr hin
      simp [hx] at havail
  · refine iff_of_true rfl ⟨by omega, ?_, ?_, ?_⟩
    · intro hnil
      subst hnil
      simp at hempty
    · refine (withinAny_iff proposedStart dayStart rules).mp ?_
      simpa using havail
    · exact (conflictAny_iff dur proposedStart bookings).mp hconf
  · refine iff_of_false (fun hcon => ?_) (fun hr => ?_)
    · injection hcon with hmsg; exact absurd hmsg (by decide)
    · exact hconf ((conflictAny_iff dur proposedStart bookings).mpr hr.2.2.2)
  · refine iff_of_false (fun hcon => ?_) (fun hr => ?_)
    · simp at hcon
    · exact hconf ((conflictAny_iff dur proposedStart bookings).mpr hr.2.2.2)

/-- C3 counterexample: a services row with active false, owned by creator 2,
is still found by both lookups: the slot request answers with four slots and
the booking request creates a pending booking, refuting that an inactive
service fails with NotFound. -/
theorem c3_counterexample :
    inactiveService.active = false ∧
      getAvailableSlots [inactiveService] [demoAvailRow] [] [] 2 1 1 0 0
        = Except.ok [(540, 570), (585, 615), (630, 660), (675, 705)] ∧
      createBooking [inactiveService] [demoAvailRow] [] [] 2 1 600 1 0 0
        = Except.ok
            { bookingDate := 600, serviceDuration := 30,
              status := BookingStatus.pending,
              paymentStatus := PaymentStatus.pending } := by
  exact ⟨rfl, rfl, rfl⟩

/-- C3 (amended): both functions answer with the service NotFound error
exactly when no services row matches the requested id and creator; the
active flag is not consulted, so an inactive service still yields slots and
is bookable. -/
theorem c3_notfound_iff :
    ∀ (services : List Service) (avail : List AvailRow)
      (bookings : List Booking) (timeOff : List (Nat × Nat))
      (creatorId serviceId dow dayStart minStart proposedStart : Nat),
      (getAvailableSlots services avail bookings timeOff creatorId serviceId
          dow dayStart minStart = Except.error serviceNotFoundMsg
        ↔ findService services serviceId creatorId = none) ∧
      (createBooking services avail bookings timeOff creatorId serviceId
          proposedStart dow dayStart minStart
          = Except.error serviceNotFoundMsg
        ↔ findService services serviceId creatorId = none) := by
  intro services avail bookings timeOff creatorId serviceId dow dayStart
    minStart proposedStart
  cases h : findService services serviceId creatorId with
  | none => constructor <;> simp [getAvailableSlots, createBooking, h]
  | some s =>
    have hne := createBookingCheck_ne_serviceNotFound s.duration minStart
      proposedStart dayStart (queryAvailability avail creatorId dow)
      bookings timeOff
    constructor
    · simp [getAvailableSlots, h]
    · simp [createBooking, h, hne]

/-- C4 counterexample: proposed start 1000 with a 30-minute service. A
time-off row ending exactly at the proposed start, and one starting exactly
at the proposed duration-only end, each make the validator fail, refuting
that boundary-touching time off never causes failure. -/
theorem c4_counterexample :
    createBookingCheck 30 0 1000 0 [(0, 1440)] [] [(900, 1000)]
        = Except.error timeOffConflictMsg ∧
      createBookingCheck 30 0 1000 0 [(0, 1440)] [] [(1030, 1200)]
        = Except.error timeOffConflictMsg := by
  exact ⟨rfl, rfl⟩

/-- C4 (amended): the time-off check uses the closed comparisons of the
query against the buffered interval: the validator fails with the time-off
error exactly when the earlier checks pass, no booking conflict fires, and
some time-off row has start at most proposedStart + duration + buffer and
end at least proposedStart; a row merely touching either boundary therefore
does cause failure. -/
theorem c4_timeoff_decision :
    ∀ (dur minStart proposedStart dayStart : Nat)
      (rules : List (Nat × Nat)) (bookings : List Booking)
      (timeOff : List (Nat × Nat)),
      createBookingCheck dur minStart proposedStart dayStart rules bookings
          timeOff = Except.error timeOffConflictMsg
        ↔ minStart < proposedStart ∧ rules ≠ [] ∧
            (∃ r ∈ rules, r.1 ≤ proposedStart - dayStart ∧
              proposedStart - dayStart < r.2) ∧
            ¬ (∃ b ∈ bookings, occupying b = true ∧
              proposedStart < b.bookingDate + (dur + BUFFER_MINUTES) ∧
              proposedStart + (dur + BUFFER_MINUTES) > b.bookingDate) ∧
            ∃ p ∈ timeOff, p.1 ≤ proposedStart + (dur + BUFFER_MINUTES) ∧
              proposedStart ≤ p.2 := by
  intro dur minStart proposedStart dayStart rules bookings timeOff
  unfold createBookingCheck
  split_ifs with hlead hempty havail hconf htoff
  · refine iff_of_false (fun hcon => ?_) (fun hr => ?_)
    · injection hcon with hmsg; exact absurd hmsg (by decide)
    · exact absurd hr.1 (by omega)
  · refine iff_of_false (fun hcon => ?_) (fun hr => ?_)
    · injection hcon with hmsg; exact absurd hmsg (by decide)
    · rcases hr with ⟨_, hne, _, _⟩
      cases rules with
      | nil => exact hne rfl
      | cons a l => simp at hempty
  · refine iff_of_false (fun hcon => ?_) (fun hr => ?_)
    · injection hcon with hmsg; exact absurd hmsg (by decide)
    · rcases hr with ⟨_, _, hin, _⟩
      have hx := (withinAny_iff proposedStart dayStart rules).mpr hin
      simp [hx] at havail
  · refine iff_of_false (fun hcon => ?_) (fun hr => ?_)
    · injection hcon with hmsg; exact absurd hmsg (by decide)
    · exact hr.2.2.2.1 ((conflictAny_iff dur proposedStart bookings).mp hconf)
  · refine iff_of_true rfl ⟨by omega, ?_, ?_, ?_, ?_⟩
    · intro hnil
      subst hnil
      simp at hempty
    · refine (withinAny_iff proposedStart dayStart rules).mp ?_
      simpa using havail
    · intro hex
      exact hconf ((conflictAny_iff dur proposedStart bookings).mpr hex)
    · exact (timeOffAny_iff dur proposedStart timeOff).mp htoff
  · refine iff_of_false (fun hcon => ?_) (fun hr => ?_)
    · simp at hcon
    · exact htoff ((timeOffAny_iff dur proposedStart timeOff).mpr hr.2.2.2.2)

end BookSavvy
